import Mathlib

/-
Verification development for the DeepPokedex training script (main.py).

The script is a linear pipeline: parse arguments, load four pickled
arrays, normalize the image arrays, wrap (image, label) pairs into
distributed datasets, build a Siamese convolutional graph with a shared
tower, train, and print a same/different report.  The shallow embedding
below models each of those steps over exact rationals and explicit
lists; the external distributed trainer and the inference engine are
treated as opaque function parameters, exactly as the script treats
them (it only wires them together).
-/

/-- Five-dimensional numeric array, indexed (sample, pair-slot, height,
width, channel) for the raw pickled image arrays, and (sample,
pair-slot, channel, height, width) after the transpose on lines 73-74. -/
def Arr5 : Type := Nat → Nat → Nat → Nat → Nat → ℚ

/-- Per-sample image tensor: one element of the transposed array along
the sample axis, indexed (pair-slot, channel, height, width). -/
def Img : Type := Nat → Nat → Nat → Nat → ℚ

/-- Shape metadata of a five-dimensional array, as returned by
numpy's .shape on the raw arrays: (N, P, H, W, C). -/
def Shape5 : Type := Nat × Nat × Nat × Nat × Nat

/-- The transpose((0, 1, 4, 2, 3)) applied to the raw image arrays on
lines 73-74: output index (n, p, c, h, w) reads input index
(n, p, h, w, c), i.e. layout (N, P, H, W, C) becomes (N, P, C, H, W). -/
def transpose_01423 (a : Arr5) : Arr5 :=
  fun n p c h w => a n p h w c

/-- Elementwise division of an array by a scalar, the "/ 225.0" on
lines 73-74. -/
def scale_div (a : Arr5) (d : ℚ) : Arr5 :=
  fun n p c h w => a n p c h w / d

/-- The full normalization applied to an image array on lines 73-74:
transpose to channel-first layout, then divide every element by 225
(the literal divisor in the source; 225, not 255). -/
def normalize_img (a : Arr5) : Arr5 :=
  scale_div (transpose_01423 a) 225

/-- Line 73: the normalized train image array. -/
def t_train_img (train_img : Arr5) : Arr5 := normalize_img train_img

/-- Line 74: the normalized test image array. -/
def t_test_img (test_img : Arr5) : Arr5 := normalize_img test_img

/-- A raw 8-bit image array whose entries all have the maximal 8-bit
value 255; every entry lies in [0, 255]. -/
def raw_255 : Arr5 := fun _ _ _ _ _ => 255

/-- Shape derivation of lines 76-77: from a raw array of shape
(N, P, H, W, C) the script unpacks positions 0 (sample count,
NUM_TRAIN_SMP / NUM_TEST_SMP), 1 (pair count, NUM_CLASS_LABEL),
2 (spatial size, IMAGE_SIZE) and 4 (channel count,
NUM_IMAGE_CHANNEL), i.e. (num_samples, num_pairs, size, channels). -/
def derive_shape (s : Shape5) : Nat × Nat × Nat × Nat :=
  (s.1, s.2.1, s.2.2.1, s.2.2.2.2)

/-- Line 77: NUM_CLASS_LABEL is dimension 1 (the pair-slot axis) of the
raw test image array's shape. -/
def derived_num_class_label (test_shape : Shape5) : Nat := test_shape.2.1

/-- Line 76: IMAGE_SIZE is dimension 2 (the height axis) of the raw
train image array's shape. -/
def derived_image_size (train_shape : Shape5) : Nat := train_shape.2.2.1

/-- Line 76: NUM_IMAGE_CHANNEL is dimension 4 (the channel axis) of the
raw train image array's shape. -/
def derived_num_image_channel (train_shape : Shape5) : Nat := train_shape.2.2.2.2

/-- Layers of the Zoo-Keras pipeline used by the script, with the
hyperparameters the script actually passes. -/
inductive Layer
  | convolution2D (nb_filter nb_row nb_col : Nat) (activation : String)
      (input_shape : Option (List Nat)) (w_penalty : ℚ)
  | averagePooling2D (pool_w pool_h stride_w stride_h : Nat)
  | batchNormalization
  | flatten
  | dense (output_dim : Nat) (activation : String) (w_penalty : ℚ)
  | dropout (rate : ℚ)

/-- Convolutional channels in the first layer (line 44). -/
def LAYER_1_NUM_CHANNEL : Nat := 8

/-- Window size of the first convolution kernel (line 45). -/
def CONVOLVE_1_KERNEL_SIZE : Nat := 9

/-- Window size of the first pooling layer (line 46). -/
def POOLING_1_WINDOW_SIZE : Nat := 2

/-- Stride of the first pooling layer (line 47). -/
def POOLING_1_STRIDE_SIZE : Nat := 2

/-- Convolutional channels in the second layer (line 48). -/
def LAYER_2_NUM_CHANNEL : Nat := 2

/-- Window size of the second convolution kernel (line 49). -/
def CONVOLVE_2_KERNEL_SIZE : Nat := 5

/-- Window size of the second pooling layer (line 50). -/
def POOLING_2_WINDOW_SIZE : Nat := 2

/-- Stride of the second pooling layer (line 51). -/
def POOLING_2_STRIDE_SIZE : Nat := 2

/-- Dimension of the fully connected layer (line 52). -/
def FC_LINEAR_DIMENSION : Nat := 64

/-- The Sequential convolutional tower built on lines 91-143:
conv(8, 9x9, relu, L2) -> avgpool(2x2, stride 2) -> batchnorm ->
conv(2, 5x5, relu, L2) -> avgpool(2x2, stride 2) -> batchnorm ->
flatten -> dense(64, sigmoid, L2) -> dropout(rate). -/
def convolve_net (num_image_channel image_size : Nat)
    (penalty_rate dropout_rate : ℚ) : List Layer :=
  [ Layer.convolution2D LAYER_1_NUM_CHANNEL CONVOLVE_1_KERNEL_SIZE
      CONVOLVE_1_KERNEL_SIZE "relu"
      (some [num_image_channel, image_size, image_size]) penalty_rate,
    Layer.averagePooling2D POOLING_1_WINDOW_SIZE POOLING_1_WINDOW_SIZE
      POOLING_1_STRIDE_SIZE POOLING_1_STRIDE_SIZE,
    Layer.batchNormalization,
    Layer.convolution2D LAYER_2_NUM_CHANNEL CONVOLVE_2_KERNEL_SIZE
      CONVOLVE_2_KERNEL_SIZE "relu" none penalty_rate,
    Layer.averagePooling2D POOLING_2_WINDOW_SIZE POOLING_2_WINDOW_SIZE
      POOLING_2_STRIDE_SIZE POOLING_2_STRIDE_SIZE,
    Layer.batchNormalization,
    Layer.flatten,
    Layer.dense FC_LINEAR_DIMENSION "sigmoid" penalty_rate,
    Layer.dropout dropout_rate ]

/-- Operations appearing as nodes of the assembled model graph. -/
inductive Op
  | input (shape : List Nat)
  | timeDistributed (tower : List Layer)
  | indexSelect (dim idx : Nat)
  | sub
  | abs
  | dense (output_dim : Nat) (activation : String) (w_penalty : ℚ)

/-- One node of the model graph: its operation and the indices of the
nodes feeding it.  Each layer-object creation in the script allocates
exactly one such node, so node identity models Python object identity. -/
structure Node where
  op : Op
  srcs : List Nat

/-- The assembled model graph: the allocated nodes in creation order,
plus which node is the declared input and which the output. -/
structure Graph where
  nodes : List Node
  inputId : Nat
  outputId : Nat

/-- Recognizer for nodes that are an application of the time-distributed
convolutional tower. -/
def is_tower_application (n : Node) : Bool :=
  match n.op with
  | Op.timeDistributed _ => true
  | _ => false

/-- Line 88: the declared input shape
(NUM_CLASS_LABEL, NUM_IMAGE_CHANNEL, IMAGE_SIZE, IMAGE_SIZE); the
leading component is the pair-slot axis. -/
def input_shape (num_class_label num_image_channel image_size : Nat) : List Nat :=
  [num_class_label, num_image_channel, image_size, image_size]

/-- The model graph assembled on lines 88-165, node by node in the
order the script creates them:
node 0 the Input, node 1 the single TimeDistributed application of
convolve_net to the input, nodes 2 and 3 the index_select of pair
slots 0 and 1 out of node 1, node 4 their difference, node 5 its
absolute value, node 6 the Dense(NUM_CLASS_LABEL, sigmoid, L2) head.
The model's input is node 0 and its output node 6. -/
def siamese_net (num_class_label num_image_channel image_size : Nat)
    (penalty_rate dropout_rate : ℚ) : Graph :=
  ⟨[ ⟨Op.input (input_shape num_class_label num_image_channel image_size), []⟩,
     ⟨Op.timeDistributed
        (convolve_net num_image_channel image_size penalty_rate dropout_rate), [0]⟩,
     ⟨Op.indexSelect 1 0, [1]⟩,
     ⟨Op.indexSelect 1 1, [1]⟩,
     ⟨Op.sub, [2, 3]⟩,
     ⟨Op.abs, [4]⟩,
     ⟨Op.dense num_class_label "sigmoid" penalty_rate, [5]⟩ ],
   0, 6⟩

/-- Output dimension of the graph's output node, when that node is a
Dense layer. -/
def head_output_dim (g : Graph) : Option Nat :=
  match g.nodes[g.outputId]? with
  | some n =>
    match n.op with
    | Op.dense d _ _ => some d
    | _ => none
  | none => none

/-- Leading (pair-slot) component of the graph's declared input shape. -/
def pair_slot_dim (g : Graph) : Option Nat :=
  match g.nodes[g.inputId]? with
  | some n =>
    match n.op with
    | Op.input sh => sh.head?
    | _ => none
  | none => none

/-- Full declared input shape of the graph's input node. -/
def input_node_shape (g : Graph) : Option (List Nat) :=
  match g.nodes[g.inputId]? with
  | some n =>
    match n.op with
    | Op.input sh => some sh
    | _ => none
  | none => none

/-- Dataset construction of lines 80-85: zip the per-sample image
tensors with the label list by index, then map each pair to a Sample
carrying the image unchanged and the label shifted by +1. -/
def build_examples {α : Type} (imgs : List α) (lbls : List ℚ) : List (α × ℚ) :=
  (imgs.zip lbls).map (fun featurelabel => (featurelabel.1, featurelabel.2 + 1))

/-- Error raised by the loader: an IOError-class condition naming the
file that could not be read. -/
inductive LoadError
  | ioError (file : String)

/-- The four pickle files the script requires (lines 67-70), in load
order. -/
def required_files : List String :=
  ["train_image.pkl", "train_label.pkl", "test_image.pkl", "test_label.pkl"]

/-- One pickle.load(open(...)) call: the file system yields the
deserialized object, or the read fails with an IOError-class condition
naming the file.  The script wraps the call in no try/except. -/
def load_pickle {α : Type} (fs : String → Option α) (name : String) :
    Except LoadError α :=
  match fs name with
  | some a => Except.ok a
  | none => Except.error (LoadError.ioError name)

/-- Lines 67-70: the four loads in source order.  The first failing
load aborts the whole sequence; nothing is caught, translated, or
partially returned. -/
def load_data {α : Type} (fs : String → Option α) :
    Except LoadError (α × α × α × α) :=
  match load_pickle fs "train_image.pkl" with
  | Except.error e => Except.error e
  | Except.ok a =>
    match load_pickle fs "train_label.pkl" with
    | Except.error e => Except.error e
    | Except.ok b =>
      match load_pickle fs "test_image.pkl" with
      | Except.error e => Except.error e
      | Except.ok c =>
        match load_pickle fs "test_label.pkl" with
        | Except.error e => Except.error e
        | Except.ok d => Except.ok (a, b, c, d)

/-- Verdict suffix printed for one prediction record on lines 208-212:
"Same Pokemon" when the absolute difference of the two scores is
strictly below 0.1, "Different Pokemon" otherwise. -/
def report_line (s0 s1 : ℚ) : String :=
  if |s0 - s1| < 1 / 10 then "Same Pokemon" else "Different Pokemon"

/-- The parsed command-line arguments (lines 33-41). -/
structure Args where
  data_dir : String
  save_dir : String
  num_epoch : Int
  batch_size : Int
  learning_rate : ℚ
  penalty_rate : ℚ
  dropout_rate : ℚ

/-- The defaults declared by the argument parser. -/
def default_args : Args :=
  ⟨"./data", "./save", 64, 32, 1 / 1000, 1 / 1000000, 3 / 4⟩

/-- Replace only the save_dir field of a parsed argument record. -/
def set_save_dir (a : Args) (sd : String) : Args :=
  ⟨a.data_dir, sd, a.num_epoch, a.batch_size, a.learning_rate,
   a.penalty_rate, a.dropout_rate⟩

/-- os.path.join of the data directory with one of the fixed file
names (lines 67-70). -/
def data_file (dir name : String) : String := dir ++ "/" ++ name

/-- A deserialized pickle object: either a five-dimensional image array
together with its shape metadata, or a flat list of labels. -/
inductive PickleObj
  | img (shape : Shape5) (arr : Arr5)
  | lbl (values : List ℚ)

/-- Everything the script binds into the BigDL Optimizer and its
summaries (lines 167-192): Adam's learning rate, the criterion, the
MaxEpoch end trigger, the training and validation batch sizes, the
EveryEpoch validation trigger with its methods, and the summary log
location under app name "logs". -/
structure OptSpec where
  optim_lr : ℚ
  criterion : String
  max_epoch : Int
  batch_size : Int
  val_batch_size : Int
  val_trigger : String
  val_method : List String
  log_dir : String
  app_name : String

/-- Observable outcome of the pipeline after the configuration print,
when all four loads succeeded and the objects had the expected kinds:
the two constructed datasets, the assembled graph, the optimizer
binding, the trained model, and the printed report suffixes. -/
structure RanTrace (M : Type) where
  train_examples : List (Img × ℚ)
  test_examples : List (Img × ℚ)
  graph : Graph
  optimizer : OptSpec
  trained : M
  report : List String

/-- Observable outcome of everything after the configuration print:
either the run aborted inside the loader with an uncaught IOError-class
condition, or a loaded object was not of the kind the pipeline
consumes, or the pipeline ran through. -/
inductive RunRest (M : Type)
  | aborted (e : LoadError)
  | badObject
  | ran (t : RanTrace M)

/-- The per-sample slices of a (transposed) image array along the
sample axis, in index order: element i is the image-pair tensor of
sample i, as handed to sc.parallelize on lines 80-85. -/
def sample_list (t : Arr5) (n : Nat) : List Img :=
  (List.range n).map (fun i => fun p c h w => t i p c h w)

/-- The whole observable run of the script, as a function of the parsed
arguments, the file system, and the two opaque external collaborators:
the distributed trainer (Optimizer.optimize, a function of the graph,
the optimizer binding, and the two datasets) and the inference engine
(model.predict(...).collect()).  The first component is the printed
configuration block (json.dumps of all parsed arguments, line 55); the
second is everything after it: load the four pickles from data_dir
(lines 67-70), normalize both image arrays (lines 73-74), derive the
shape constants (lines 76-77), build both example datasets (lines
80-85), assemble the graph (lines 88-165), bind the optimizer (lines
167-192), train (line 199), predict, and print one report suffix per
prediction record (lines 203-212). -/
def run_program (M : Type)
    (train : Graph → OptSpec → List (Img × ℚ) → List (Img × ℚ) → M)
    (infer : M → List (Img × ℚ) → List (ℚ × ℚ))
    (fs : String → Option PickleObj) (a : Args) : Args × RunRest M :=
  (a,
   match load_data (fun name => fs (data_file a.data_dir name)) with
   | Except.error e => RunRest.aborted e
   | Except.ok (ti, tl, si, sl) =>
     match ti, tl, si, sl with
     | PickleObj.img train_shape train_arr, PickleObj.lbl train_lbl,
       PickleObj.img test_shape test_arr, PickleObj.lbl test_lbl =>
       let t_train := normalize_img train_arr
       let t_test := normalize_img test_arr
       let num_train_smp := train_shape.1
       let image_size := derived_image_size train_shape
       let num_image_channel := derived_num_image_channel train_shape
       let num_test_smp := test_shape.1
       let num_class_label := derived_num_class_label test_shape
       let train_rdd := build_examples (sample_list t_train num_train_smp) train_lbl
       let test_rdd := build_examples (sample_list t_test num_test_smp) test_lbl
       let graph := siamese_net num_class_label num_image_channel image_size
         a.penalty_rate a.dropout_rate
       let opt : OptSpec :=
         ⟨a.learning_rate, "CrossEntropyCriterion", a.num_epoch, a.batch_size,
          a.batch_size, "EveryEpoch", ["Top1Accuracy"], ".", "logs"⟩
       let model := train graph opt train_rdd test_rdd
       let preds := infer model test_rdd
       RunRest.ran ⟨train_rdd, test_rdd, graph, opt, model,
         preds.map (fun p => report_line p.1 p.2)⟩
     | _, _, _, _ => RunRest.badObject)

/-- A trivial trainer used to instantiate the opaque collaborator in
concrete witnesses. -/
def unit_train : Graph → OptSpec → List (Img × ℚ) → List (Img × ℚ) → Unit :=
  fun _ _ _ _ => ()

/-- A trivial inference engine used to instantiate the opaque
collaborator in concrete witnesses. -/
def unit_infer : Unit → List (Img × ℚ) → List (ℚ × ℚ) :=
  fun _ _ => []

/-- A file system with no readable files at all. -/
def empty_fs : String → Option PickleObj := fun _ => none

/-- C1: the Reporter prints the "Same Pokemon" verdict if and only if
the absolute difference of the two scores is strictly below 0.1, and
"Different Pokemon" otherwise; a difference of exactly 0.1 falls on the
"Different Pokemon" branch, 0.0999 on "Same Pokemon", and 0.1001 on
"Different Pokemon". -/
theorem reporter_decision_rule :
    (∀ s0 s1 : ℚ, report_line s0 s1 = "Same Pokemon" ↔ |s0 - s1| < 1 / 10)
    ∧ (∀ s0 s1 : ℚ, report_line s0 s1 = "Different Pokemon" ↔ ¬ |s0 - s1| < 1 / 10)
    ∧ report_line 0 (1 / 10) = "Different Pokemon"
    ∧ report_line 0 (999 / 10000) = "Same Pokemon"
    ∧ report_line 0 (1001 / 10000) = "Different Pokemon" := by
  refine ⟨?_, ?_, ?_, ?_, ?_⟩
  · intro s0 s1
    by_cases h : |s0 - s1| < 1 / 10 <;> simp [report_line, h]
  · intro s0 s1
    by_cases h : |s0 - s1| < 1 / 10 <;> simp [report_line, h]
  · have h : ¬ |(0 : ℚ) - 1 / 10| < 1 / 10 := by
      rw [zero_sub, abs_neg, abs_of_nonneg (by norm_num)]
      norm_num
    unfold report_line
    exact if_neg h
  · have h : |(0 : ℚ) - 999 / 10000| < 1 / 10 := by
      rw [zero_sub, abs_neg, abs_of_nonneg (by norm_num)]
      norm_num
    unfold report_line
    exact if_pos h
  · have h : ¬ |(0 : ℚ) - 1001 / 10000| < 1 / 10 := by
      rw [zero_sub, abs_neg, abs_of_nonneg (by norm_num)]
      norm_num
    unfold report_line
    exact if_neg h

/-- C2 evaluated at the failing input: a raw 8-bit image array whose
entries all equal 255 (so every entry lies in [0, 255]) normalizes,
through the literal division by 225, to the value 255/225 = 17/15,
which exceeds 1 — the claim that all normalized entries lie in [0, 1]
fails on the code. -/
theorem normalize_exceeds_one_at_255 :
    (∀ n p h w c, (0 : ℚ) ≤ raw_255 n p h w c ∧ raw_255 n p h w c ≤ 255)
    ∧ normalize_img raw_255 0 0 0 0 0 = 17 / 15
    ∧ 1 < normalize_img raw_255 0 0 0 0 0 := by
  refine ⟨fun n p h w c => by norm_num [raw_255], ?_, ?_⟩
  · norm_num [normalize_img, scale_div, transpose_01423, raw_255]
  · norm_num [normalize_img, scale_div, transpose_01423, raw_255]

/-- C3: normalization is exactly the transpose from layout
(N, pair, H, W, C) to (N, pair, C, H, W) followed by elementwise
division by 225, and the very same transformation is applied to the
train and to the test image array. -/
theorem normalize_transpose_div225 :
    (∀ (a : Arr5) (n p c h w : Nat),
      normalize_img a n p c h w = a n p h w c / 225)
    ∧ t_train_img = normalize_img
    ∧ t_test_img = normalize_img :=
  ⟨fun _ _ _ _ _ _ => rfl, rfl, rfl⟩

/-- C4 counterexample: on the concrete shape (3, 2, 4, 5, 1) the
shape-derivation step yields (3, 2, 4, 1) — the fourth component is
the channel count, read from dimension 4 — and not (3, 2, 4, 5), the
tuple (N, P, H, W) the claim names. -/
theorem derive_shape_not_width :
    derive_shape (3, 2, 4, 5, 1) = (3, 2, 4, 1)
    ∧ derive_shape (3, 2, 4, 5, 1) ≠ (3, 2, 4, 5) :=
  ⟨rfl, by decide⟩

/-- C4 as amended: for an array of shape (N, P, H, W, C) the
shape-derivation step returns exactly (N, P, H, C) — num_samples from
dimension 0, num_pairs from dimension 1, size from dimension 2 and
channels from dimension 4 of the raw (untransposed) array — which
coincides with the claimed (N, P, H, W) only when W = C. -/
theorem derive_shape_components (N P H W C : Nat) :
    derive_shape (N, P, H, W, C) = (N, P, H, C) := rfl

/-- C5: the assembled graph contains exactly one application node of
the time-distributed convolutional tower, and the two branch
extractions (index_select of pair slots 0 and 1) both read from that
single node, so both logical branches share one parameter set by
construction. -/
theorem tower_shared_single_instance (nc nic isz : Nat) (pr dr : ℚ) :
    (siamese_net nc nic isz pr dr).nodes.countP is_tower_application = 1
    ∧ (siamese_net nc nic isz pr dr).nodes[2]? =
        some ⟨Op.indexSelect 1 0, [1]⟩
    ∧ (siamese_net nc nic isz pr dr).nodes[3]? =
        some ⟨Op.indexSelect 1 1, [1]⟩
    ∧ (siamese_net nc nic isz pr dr).nodes[1]? =
        some ⟨Op.timeDistributed (convolve_net nic isz pr dr), [0]⟩ :=
  ⟨rfl, rfl, rfl, rfl⟩

/-- Index-wise description of the dataset construction: entry i of the
zipped-and-mapped dataset is image i paired with label i shifted by
one. -/
theorem build_examples_getElem {α : Type} (imgs : List α) (lbls : List ℚ) (i : Nat)
    (h : i < (build_examples imgs lbls).length)
    (h1 : i < imgs.length) (h2 : i < lbls.length) :
    (build_examples imgs lbls)[i] = (imgs[i], lbls[i] + 1) := by
  simp [build_examples]

/-- C6: the Labeled Example built for sample index i carries label
value L + 1 where L is entry i of the raw label array; the shift is the
single map over the zipped dataset, applied exactly once per example
and never cumulatively. -/
theorem label_shift_once {α : Type} (imgs : List α) (lbls : List ℚ) (i : Nat)
    (h : i < (build_examples imgs lbls).length) (h2 : i < lbls.length) :
    ((build_examples imgs lbls)[i]).2 = lbls[i] + 1 := by
  have h1 : i < imgs.length := by
    simp [build_examples] at h
    exact h.1
  rw [build_examples_getElem imgs lbls i h h1 h2]

/-- C6 witness: with labels [3, 4], the example at index 1 carries
label 4 + 1. -/
theorem label_shift_once_witness :
    1 < (build_examples [(10 : ℚ), 20] [(3 : ℚ), 4]).length
    ∧ 1 < ([(3 : ℚ), 4] : List ℚ).length
    ∧ ((build_examples [(10 : ℚ), 20] [(3 : ℚ), 4]).get ⟨1, by decide⟩).2
        = (4 : ℚ) + 1 :=
  ⟨by decide, by decide,
   label_shift_once [(10 : ℚ), 20] [(3 : ℚ), 4] 1 (by decide) (by decide)⟩

/-- C7: the Labeled Example built from sample index i combines image
tensor i with label i (+1), because the zip aligns the two lists by
index before the distributed map; no example mixes an image from one
index with a label from another. -/
theorem pairing_alignment {α : Type} (imgs : List α) (lbls : List ℚ) (i : Nat)
    (h : i < (build_examples imgs lbls).length)
    (h1 : i < imgs.length) (h2 : i < lbls.length) :
    (build_examples imgs lbls)[i] = (imgs[i], lbls[i] + 1) :=
  build_examples_getElem imgs lbls i h h1 h2

/-- C7 witness: the single example built from image [7] and label [0]
is exactly (7, 0 + 1). -/
theorem pairing_alignment_witness :
    0 < (build_examples [(7 : ℚ)] [(0 : ℚ)]).length
    ∧ 0 < ([(7 : ℚ)] : List ℚ).length
    ∧ 0 < ([(0 : ℚ)] : List ℚ).length
    ∧ (build_examples [(7 : ℚ)] [(0 : ℚ)]).get ⟨0, by decide⟩
        = ((7 : ℚ), (0 : ℚ) + 1) :=
  ⟨by decide, by decide, by decide,
   pairing_alignment [(7 : ℚ)] [(0 : ℚ)] 0 (by decide) (by decide) (by decide)⟩

/-- When one of the four required pickle files is unreadable, the load
sequence of lines 67-70 surfaces an IOError-class condition naming a
missing required file, untranslated and with no partial result. -/
theorem load_data_missing {α : Type} (fs : String → Option α)
    (h : ∃ f ∈ required_files, fs f = none) :
    ∃ g ∈ required_files, fs g = none
      ∧ load_data fs = Except.error (LoadError.ioError g) := by
  by_cases e1 : fs "train_image.pkl" = none
  · exact ⟨"train_image.pkl", by simp [required_files], e1,
      by simp [load_data, load_pickle, e1]⟩
  · obtain ⟨v1, hv1⟩ := Option.ne_none_iff_exists'.mp e1
    by_cases e2 : fs "train_label.pkl" = none
    · exact ⟨"train_label.pkl", by simp [required_files], e2,
        by simp [load_data, load_pickle, hv1, e2]⟩
    · obtain ⟨v2, hv2⟩ := Option.ne_none_iff_exists'.mp e2
      by_cases e3 : fs "test_image.pkl" = none
      · exact ⟨"test_image.pkl", by simp [required_files], e3,
          by simp [load_data, load_pickle, hv1, hv2, e3]⟩
      · obtain ⟨v3, hv3⟩ := Option.ne_none_iff_exists'.mp e3
        by_cases e4 : fs "test_label.pkl" = none
        · exact ⟨"test_label.pkl", by simp [required_files], e4,
            by simp [load_data, load_pickle, hv1, hv2, hv3, e4]⟩
        · obtain ⟨f, hf, hfn⟩ := h
          simp [required_files] at hf
          rcases hf with rfl | rfl | rfl | rfl
          · exact absurd hfn e1
          · exact absurd hfn e2
          · exact absurd hfn e3
          · exact absurd hfn e4

/-- C8: if any of the four required input files under data_dir is
missing or unreadable, the loader fails with an IOError-class condition
naming a required file, the error is not caught or translated anywhere
in the script, and the whole run aborts with no partial-read recovery
(the observable rest of the run is exactly the aborted state carrying
that error). -/
theorem loader_ioerror_aborts (M : Type)
    (train : Graph → OptSpec → List (Img × ℚ) → List (Img × ℚ) → M)
    (infer : M → List (Img × ℚ) → List (ℚ × ℚ))
    (fs : String → Option PickleObj) (a : Args)
    (h : ∃ f ∈ required_files, fs (data_file a.data_dir f) = none) :
    ∃ g ∈ required_files, fs (data_file a.data_dir g) = none
      ∧ load_data (fun name => fs (data_file a.data_dir name)) =
          Except.error (LoadError.ioError g)
      ∧ (run_program M train infer fs a).2 =
          RunRest.aborted (LoadError.ioError g) := by
  obtain ⟨g, hg, hnone, herr⟩ :=
    load_data_missing (fun name => fs (data_file a.data_dir name)) h
  exact ⟨g, hg, hnone, herr, by simp [run_program, herr]⟩

/-- C8 witness: on an empty file system and the default arguments, the
run aborts with the IOError-class condition of a required file. -/
theorem loader_ioerror_aborts_witness :
    (∃ f ∈ required_files, empty_fs (data_file default_args.data_dir f) = none)
    ∧ (∃ g ∈ required_files, empty_fs (data_file default_args.data_dir g) = none
      ∧ load_data (fun name => empty_fs (data_file default_args.data_dir name)) =
          Except.error (LoadError.ioError g)
      ∧ (run_program Unit unit_train unit_infer empty_fs default_args).2 =
          RunRest.aborted (LoadError.ioError g)) :=
  ⟨⟨"train_image.pkl", by simp [required_files], rfl⟩,
   loader_ioerror_aborts Unit unit_train unit_infer empty_fs default_args
     ⟨"train_image.pkl", by simp [required_files], rfl⟩⟩

/-- C9: two runs that differ only in the save_dir argument behave
identically in everything after the printed configuration block — the
loader outcome, both datasets, the graph, the optimizer binding, the
trained model, and the printed report are all equal — while the
configuration block itself reproduces each run's own arguments;
save_dir feeds no other output. -/
theorem save_dir_noninterference (M : Type)
    (train : Graph → OptSpec → List (Img × ℚ) → List (Img × ℚ) → M)
    (infer : M → List (Img × ℚ) → List (ℚ × ℚ))
    (fs : String → Option PickleObj) (a : Args) (sd : String) :
    (run_program M train infer fs (set_save_dir a sd)).2 =
      (run_program M train infer fs a).2
    ∧ (run_program M train infer fs (set_save_dir a sd)).1 = set_save_dir a sd
    ∧ (run_program M train infer fs a).1 = a :=
  ⟨rfl, rfl, rfl⟩

/-- C10: the classifier head's output dimension and the leading
(pair-slot) component of the declared input shape are both the single
value NUM_CLASS_LABEL read from dimension 1 of the raw test image
array's shape — a function of the image shapes alone, never of the
label values — and the two spatial components of the declared input
shape are both IMAGE_SIZE, read from dimension 2 (height) of the raw
train image array's shape. -/
theorem class_count_from_test_pair_dim (train_shape test_shape : Shape5)
    (pr dr : ℚ) :
    head_output_dim (siamese_net (derived_num_class_label test_shape)
        (derived_num_image_channel train_shape) (derived_image_size train_shape)
        pr dr) = some test_shape.2.1
    ∧ pair_slot_dim (siamese_net (derived_num_class_label test_shape)
        (derived_num_image_channel train_shape) (derived_image_size train_shape)
        pr dr) = some test_shape.2.1
    ∧ input_node_shape (siamese_net (derived_num_class_label test_shape)
        (derived_num_image_channel train_shape) (derived_image_size train_shape)
        pr dr) = some [test_shape.2.1, train_shape.2.2.2.2,
          train_shape.2.2.1, train_shape.2.2.1]
    ∧ derived_num_class_label test_shape = test_shape.2.1
    ∧ derived_image_size train_shape = train_shape.2.2.1 :=
  ⟨rfl, rfl, rfl, rfl, rfl⟩
